import Mathlib

/-!
Shallow embedding of `src/python/cd_protocol/__init__.py`: the mesh frame
codec (header pack/unpack with stream resynchronization) and the payload
codecs.  Byte strings are modelled as `List ℕ` (each element a byte value);
Python `int` fields are modelled as `ℤ`; Python `float` inputs to the
fixed-point scaler are modelled as `ℚ`.  `struct.pack` range failures and
the explicit `ValueError`s are modelled with `Except PackError`.
-/

namespace CdProtocol

/-- `HU_PROTOCOL_MAGIC = 0xA5`. -/
def HU_PROTOCOL_MAGIC : ℕ := 0xA5

/-- `HU_MAX_PAYLOAD_SIZE = 230`. -/
def HU_MAX_PAYLOAD_SIZE : ℕ := 230

/-- `HEADER_SIZE = 9` (`struct.calcsize("<BBBBBBHB")`). -/
def HEADER_SIZE : ℕ := 9

/-- Encode-time failures: the two explicit `ValueError`s raised by the
codec, and `struct.error`, raised by `struct.pack` when an integer does not
fit its field width. -/
inductive PackError where
  | payloadTooLarge
  | tooManyNodes
  | structError
deriving Repr, DecidableEq

/-- `struct` range check for format `B` (unsigned 8-bit). -/
def isB (x : ℤ) : Bool := 0 ≤ x && x < 256

/-- `struct` range check for format `H` (unsigned 16-bit). -/
def isH (x : ℤ) : Bool := 0 ≤ x && x < 65536

/-- `@dataclass class MeshFrame` — field names and defaults as in the
source. -/
structure MeshFrame where
  src_id : ℤ
  dst_id : ℤ
  msg_type : ℤ
  payload : List ℕ := []
  via_id : ℤ := 0
  seq_num : ℤ := 0
  flags : ℤ := 0
deriving Repr, DecidableEq

/-- `MeshFrame.pack`: reject payloads longer than `HU_MAX_PAYLOAD_SIZE`
with `ValueError` (`payloadTooLarge`), then `struct.pack("<BBBBBBHB", ...)`
the header — which raises `struct.error` if any header field is outside
its unsigned width — and append the payload bytes.  The `H` field
(`seq_num`) is little-endian.  The payload-length byte is `≤ 230 < 256`,
so its own `B` range check cannot fail once the size check passed. -/
def MeshFrame.pack (f : MeshFrame) : Except PackError (List ℕ) :=
  if f.payload.length > HU_MAX_PAYLOAD_SIZE then
    .error .payloadTooLarge
  else if isB f.flags && isB f.src_id && isB f.dst_id && isB f.via_id &&
      isB f.msg_type && isH f.seq_num then
    .ok ([HU_PROTOCOL_MAGIC, f.flags.toNat, f.src_id.toNat, f.dst_id.toNat,
          f.via_id.toNat, f.msg_type.toNat, f.seq_num.toNat % 256,
          f.seq_num.toNat / 256, f.payload.length] ++ f.payload)
  else .error .structError

/-- `MeshFrame.unpack`: if fewer than `HEADER_SIZE` bytes, return
`(None, data)`; otherwise `struct.unpack` the 9-byte header (the
pattern-match names the nine header bytes; `seq = s0 + 256*s1` is the
little-endian `H` field).  A magic mismatch drops exactly one byte;
an incomplete payload (`len(data) < HEADER_SIZE + p_len`, i.e.
`rest.length < p_len`) returns the buffer unchanged; otherwise the frame
plus the bytes after `data[HEADER_SIZE + p_len:]`. -/
def MeshFrame.unpack : List ℕ → Option MeshFrame × List ℕ
  | data@(magic :: flags :: src :: dst :: via :: msg_type :: s0 :: s1 ::
      p_len :: rest) =>
    if magic ≠ HU_PROTOCOL_MAGIC then (none, data.drop 1)
    else if rest.length < p_len then (none, data)
    else
      (some { src_id := src, dst_id := dst, msg_type := msg_type,
              payload := rest.take p_len, via_id := via,
              seq_num := (s0 : ℤ) + 256 * s1, flags := flags },
       rest.drop p_len)
  | data => (none, data)

/-- Python 3 `round` applied to an exactly represented quotient: round to
nearest, ties to even. -/
def pyRound (q : ℚ) : ℤ :=
  if q - ⌊q⌋ < 1 / 2 then ⌊q⌋
  else if (1 : ℚ) / 2 < q - ⌊q⌋ then ⌊q⌋ + 1
  else if ⌊q⌋ % 2 = 0 then ⌊q⌋ else ⌊q⌋ + 1

/-- The scaling helper `_s` defined inside `PayloadProfileNode.pack`:
`i = int(round(val / factor)); return max(0, min(255, i))`. -/
def _s (val factor : ℚ) : ℤ := max 0 (min 255 (pyRound (val / factor)))

/-- `@dataclass class PayloadProfileNode` — float-valued fields become `ℚ`. -/
structure PayloadProfileNode where
  time_offset_ms : ℤ
  priority : ℤ
  interpolation : ℤ
  temp_target : ℚ
  temp_tol : ℚ
  press_target : ℚ
  press_tol : ℚ
  flow_in_target : ℚ
  flow_in_tol : ℚ
  flow_out_target : ℚ
  flow_out_tol : ℚ
  energy_target : ℤ
  energy_tol : ℤ
deriving Repr, DecidableEq

/-- The config byte computed first in `PayloadProfileNode.pack`:
`(interp & 3) | ((prio & 3) << 2)` — the left shift by 2 of a value in
`0..3` is written `* 4`.  Always in `0..15`. -/
def PayloadProfileNode.config (n : PayloadProfileNode) : ℤ :=
  Int.lor (Int.land n.interpolation 3) (Int.land n.priority 3 * 4)

/-- `PayloadProfileNode.pack`: the config byte packs interpolation in bits
0–1 and priority in bits 2–3 (it is in `0..15`, so its `B` range check
cannot fail), then
`struct.pack("<HB BBBBBBBBBB", ...)`: the 16-bit time offset little-endian
(raising `struct.error` when out of range), the config byte, and the ten
scaled bytes produced by `_s` (always in `0..255`). -/
def PayloadProfileNode.pack (n : PayloadProfileNode) :
    Except PackError (List ℕ) :=
  if isH n.time_offset_ms then
    .ok [n.time_offset_ms.toNat % 256, n.time_offset_ms.toNat / 256,
         n.config.toNat,
         (_s n.temp_target (1 / 2)).toNat, (_s n.temp_tol (1 / 2)).toNat,
         (_s n.press_target (1 / 10)).toNat, (_s n.press_tol (1 / 10)).toNat,
         (_s n.flow_in_target (1 / 10)).toNat,
         (_s n.flow_in_tol (1 / 10)).toNat,
         (_s n.flow_out_target (1 / 10)).toNat,
         (_s n.flow_out_tol (1 / 10)).toNat,
         (_s n.energy_target 1).toNat, (_s n.energy_tol 1).toNat]
  else .error .structError

/-- `@dataclass class PayloadProfileLoad`. -/
structure PayloadProfileLoad where
  profile_id : ℤ
  nodes : List PayloadProfileNode
deriving Repr, DecidableEq

/-- `PayloadProfileLoad.pack`: raise `ValueError` (`tooManyNodes`) when more
than 17 nodes, else `struct.pack("<BB", profile_id, len(nodes))` (the node
count is `≤ 17 < 256`, so only `profile_id` can fail its `B` range check)
followed by each node's packed bytes in order; a node whose own pack raises
propagates that error, as Python's loop would. -/
def PayloadProfileLoad.pack (p : PayloadProfileLoad) :
    Except PackError (List ℕ) :=
  if p.nodes.length > 17 then .error .tooManyNodes
  else if isB p.profile_id then do
    let parts ← p.nodes.mapM PayloadProfileNode.pack
    return [p.profile_id.toNat, p.nodes.length] ++ parts.flatten
  else .error .structError

/-- Little-endian 16-bit value from two bytes. -/
def u16le (b0 b1 : ℕ) : ℕ := b0 + 256 * b1

/-- Little-endian 32-bit value from four bytes. -/
def u32le (b0 b1 b2 b3 : ℕ) : ℕ := b0 + 256 * b1 + 65536 * b2 + 16777216 * b3

/-- Two's-complement reinterpretation of a `w`-bit unsigned value, as
`struct.unpack`'s signed formats `h` and `i` perform. -/
def toSigned (w u : ℕ) : ℤ :=
  if u < 2 ^ (w - 1) then (u : ℤ) else (u : ℤ) - 2 ^ w

/-- `@dataclass class PayloadScaleData`. -/
structure PayloadScaleData where
  timestamp_ms : ℕ
  weight_mg : ℤ
  flow_mg_s : ℤ
  status : ℕ
deriving Repr, DecidableEq

/-- `PayloadScaleData.unpack`: `None` when fewer than 11 bytes, else
`struct.unpack("<IihB", data[:11])` — unsigned 32-bit timestamp, signed
32-bit weight, signed 16-bit flow, unsigned status byte, all
little-endian; extra bytes beyond the 11th are ignored. -/
def PayloadScaleData.unpack (data : List ℕ) : Option PayloadScaleData :=
  if data.length < 11 then none
  else
    some { timestamp_ms :=
             u32le (data.getD 0 0) (data.getD 1 0) (data.getD 2 0)
               (data.getD 3 0),
           weight_mg :=
             toSigned 32
               (u32le (data.getD 4 0) (data.getD 5 0) (data.getD 6 0)
                 (data.getD 7 0)),
           flow_mg_s := toSigned 16 (u16le (data.getD 8 0) (data.getD 9 0)),
           status := data.getD 10 0 }

/-- `@dataclass class PayloadInputEvent`. -/
structure PayloadInputEvent where
  source_index : ℕ
  event_type : ℕ
  value : ℤ
deriving Repr, DecidableEq

/-- `PayloadInputEvent.unpack`: `None` when fewer than 6 bytes, else
`struct.unpack("<BBi", data[:6])` — source index byte, event type byte,
signed 32-bit little-endian value; extra bytes are ignored. -/
def PayloadInputEvent.unpack (data : List ℕ) : Option PayloadInputEvent :=
  if data.length < 6 then none
  else
    some { source_index := data.getD 0 0, event_type := data.getD 1 0,
           value :=
             toSigned 32
               (u32le (data.getD 2 0) (data.getD 3 0) (data.getD 4 0)
                 (data.getD 5 0)) }

/-- The rounding the spec prescribes for the scaled profile-node fields:
round to nearest, ties away from zero. -/
def roundHalfAwayFromZero (q : ℚ) : ℤ :=
  if 0 ≤ q then ⌊q + 1 / 2⌋ else -⌊-q + 1 / 2⌋

/-- The byte the spec's scaling formula prescribes:
`clamp(round(value / step), 0, 255)` with round half away from zero. -/
def specScaledByte (val step : ℚ) : ℤ :=
  max 0 (min 255 (roundHalfAwayFromZero (val / step)))

/-!  Theorems. -/

/-- All header fields of a frame fit their wire widths: 8-bit addresses,
flags and message type, 16-bit sequence number. -/
def MeshFrame.fieldsInRange (f : MeshFrame) : Prop :=
  0 ≤ f.flags ∧ f.flags < 256 ∧ 0 ≤ f.src_id ∧ f.src_id < 256 ∧
  0 ≤ f.dst_id ∧ f.dst_id < 256 ∧ 0 ≤ f.via_id ∧ f.via_id < 256 ∧
  0 ≤ f.msg_type ∧ f.msg_type < 256 ∧ 0 ≤ f.seq_num ∧ f.seq_num < 65536

instance (f : MeshFrame) : Decidable f.fieldsInRange := by
  unfold MeshFrame.fieldsInRange; infer_instance

/-- Closed form of `MeshFrame.pack` on a frame whose payload fits and whose
header fields are in range. -/
theorem MeshFrame.pack_eq (f : MeshFrame) (hp : f.payload.length ≤ 230)
    (hr : f.fieldsInRange) :
    f.pack = Except.ok ([0xA5, f.flags.toNat, f.src_id.toNat, f.dst_id.toNat,
      f.via_id.toNat, f.msg_type.toNat, f.seq_num.toNat % 256,
      f.seq_num.toNat / 256, f.payload.length] ++ f.payload) := by
  obtain ⟨a1, a2, a3, a4, a5, a6, a7, a8, a9, a10, a11, a12⟩ := hr
  have hc : (isB f.flags && isB f.src_id && isB f.dst_id && isB f.via_id &&
      isB f.msg_type && isH f.seq_num) = true := by
    simp [isB, isH]; omega
  rw [MeshFrame.pack, if_neg (by simp [HU_MAX_PAYLOAD_SIZE]; omega),
    if_pos hc]
  rfl

/-- C1: for every frame whose payload has length at most 230 and whose
header fields are in range (8-bit addresses, flags, message type; 16-bit
sequence number), decoding the bytes produced by encoding yields exactly
the original frame and an empty remaining buffer. -/
theorem c1_frame_roundtrip (f : MeshFrame) (hp : f.payload.length ≤ 230)
    (hr : f.fieldsInRange) :
    ∃ bs, f.pack = Except.ok bs ∧ MeshFrame.unpack bs = (some f, []) := by
  refine ⟨_, f.pack_eq hp hr, ?_⟩
  obtain ⟨a1, a2, a3, a4, a5, a6, a7, a8, a9, a10, a11, a12⟩ := hr
  obtain ⟨s, d, m, p, v, q, fl⟩ := f
  simp only at a1 a2 a3 a4 a5 a6 a7 a8 a9 a10 a11 a12 hp
  simp only [List.cons_append, List.nil_append, MeshFrame.unpack]
  rw [if_neg (by simp [HU_PROTOCOL_MAGIC]), if_neg (by omega)]
  simp only [List.take_length, List.drop_length, Prod.mk.injEq,
    Option.some.injEq, MeshFrame.mk.injEq]
  refine ⟨⟨?_, ?_, ?_, trivial, ?_, ?_, ?_⟩, trivial⟩ <;> omega

/-- C1 witness: the round-trip theorem applied to a concrete frame. -/
theorem c1_frame_roundtrip_witness :
    ∃ bs, MeshFrame.pack ⟨1, 32, 50, [7, 8, 9], 2, 777, 4⟩ = Except.ok bs ∧
      MeshFrame.unpack bs = (some ⟨1, 32, 50, [7, 8, 9], 2, 777, 4⟩, []) :=
  c1_frame_roundtrip ⟨1, 32, 50, [7, 8, 9], 2, 777, 4⟩ (by decide) (by decide)

/-- C2: for every frame with payload length at most 230 and in-range header
fields, `MeshFrame.pack` returns exactly `9 + len(payload)` bytes: sentinel
`0xA5`, flags, source, destination, relay, message type, the sequence
number as two little-endian bytes, the payload length byte, then the
payload bytes unmodified. -/
theorem c2_pack_layout (f : MeshFrame) (hp : f.payload.length ≤ 230)
    (hr : f.fieldsInRange) :
    f.pack = Except.ok ([0xA5, f.flags.toNat, f.src_id.toNat, f.dst_id.toNat,
        f.via_id.toNat, f.msg_type.toNat, f.seq_num.toNat % 256,
        f.seq_num.toNat / 256, f.payload.length] ++ f.payload) ∧
      ([0xA5, f.flags.toNat, f.src_id.toNat, f.dst_id.toNat, f.via_id.toNat,
        f.msg_type.toNat, f.seq_num.toNat % 256, f.seq_num.toNat / 256,
        f.payload.length] ++ f.payload).length = 9 + f.payload.length :=
  ⟨f.pack_eq hp hr, by simp; omega⟩

/-- C2 witness: the spec's concrete scenario — source `0x01`, destination
`0x20`, message type `0x32`, the 11-byte encoded scale telemetry
`{timestamp_ms := 1000, weight_mg := 18500, flow_mg_s := 120, status := 0}`
as payload — encodes to the 20 bytes
`A5 00 01 20 00 32 00 00 0B E8 03 00 00 44 48 00 00 78 00 00`. -/
theorem c2_pack_layout_witness :
    MeshFrame.pack ⟨1, 32, 50, [232, 3, 0, 0, 68, 72, 0, 0, 120, 0, 0],
        0, 0, 0⟩ =
      Except.ok [165, 0, 1, 32, 0, 50, 0, 0, 11,
        232, 3, 0, 0, 68, 72, 0, 0, 120, 0, 0] ∧
    ([165, 0, 1, 32, 0, 50, 0, 0, 11, 232, 3, 0, 0, 68, 72, 0, 0, 120, 0, 0] :
      List ℕ).length = 20 := by
  have h := c2_pack_layout
    ⟨1, 32, 50, [232, 3, 0, 0, 68, 72, 0, 0, 120, 0, 0], 0, 0, 0⟩
    (by decide) (by decide)
  exact ⟨by simpa using h.1, by decide⟩

/-- C3: packing succeeds for every frame with in-range header fields and a
payload of exactly 230 bytes, and fails with the payload-too-large error,
producing no bytes, for every frame whose payload exceeds 230 bytes. -/
theorem c3_size_boundary (f g : MeshFrame) (hf : f.payload.length = 230)
    (hr : f.fieldsInRange) (hg : 230 < g.payload.length) :
    (∃ bs, f.pack = Except.ok bs) ∧
      g.pack = Except.error PackError.payloadTooLarge := by
  refine ⟨⟨_, f.pack_eq (le_of_eq hf) hr⟩, ?_⟩
  rw [MeshFrame.pack, if_pos (by simp [HU_MAX_PAYLOAD_SIZE]; omega)]

/-- C3 witness: a 230-byte payload packs, a 231-byte payload is rejected. -/
theorem c3_size_boundary_witness :
    (∃ bs, MeshFrame.pack ⟨1, 2, 3, List.replicate 230 0, 0, 0, 0⟩ =
        Except.ok bs) ∧
      MeshFrame.pack ⟨1, 2, 3, List.replicate 231 0, 0, 0, 0⟩ =
        Except.error PackError.payloadTooLarge :=
  c3_size_boundary _ _ (by rw [List.length_replicate]) (by decide)
    (by rw [List.length_replicate]; omega)

/-- C4 counterexample: the single-byte buffer `[0]` does not start with the
sentinel, yet `unpack` returns it unchanged — the header-length check runs
before the sentinel check — not with its first byte removed. -/
theorem c4_counterexample :
    MeshFrame.unpack [0] = (none, [0]) ∧
      ((none, [0]) : Option MeshFrame × List ℕ) ≠
        ((none, List.drop 1 [0]) : Option MeshFrame × List ℕ) := by
  decide

/-- C4 (amended): for every buffer of length at least nine — written as
nine leading bytes and a tail — whose first byte is not the sentinel
`0xA5`, `unpack` returns no frame and the buffer with exactly its first
byte removed, strictly shorter by one byte. -/
theorem c4_resync_progress (m b1 b2 b3 b4 b5 b6 b7 b8 : ℕ) (rest : List ℕ)
    (hm : m ≠ 0xA5) :
    MeshFrame.unpack
        (m :: b1 :: b2 :: b3 :: b4 :: b5 :: b6 :: b7 :: b8 :: rest) =
        (none,
          (m :: b1 :: b2 :: b3 :: b4 :: b5 :: b6 :: b7 :: b8 :: rest).drop
            1) ∧
      ((m :: b1 :: b2 :: b3 :: b4 :: b5 :: b6 :: b7 :: b8 :: rest).drop
          1).length + 1 =
        (m :: b1 :: b2 :: b3 :: b4 :: b5 :: b6 :: b7 :: b8 :: rest).length := by
  refine ⟨?_, by simp⟩
  simp [MeshFrame.unpack, HU_PROTOCOL_MAGIC, hm]

/-- C4 witness: a 9-byte buffer starting with byte `7`. -/
theorem c4_resync_progress_witness :
    MeshFrame.unpack [7, 1, 2, 3, 4, 5, 6, 7, 8] =
        (none, ([7, 1, 2, 3, 4, 5, 6, 7, 8] : List ℕ).drop 1) ∧
      ((([7, 1, 2, 3, 4, 5, 6, 7, 8] : List ℕ).drop 1).length) + 1 =
        ([7, 1, 2, 3, 4, 5, 6, 7, 8] : List ℕ).length :=
  c4_resync_progress 7 1 2 3 4 5 6 7 8 [] (by decide)

/-- C5: a buffer of length at least nine that starts with the sentinel but
is shorter than `9 +` the declared payload length is returned unchanged
with no frame, and unpacking the returned buffer again gives the same
unchanged result — no bytes are consumed before the full frame arrives. -/
theorem c5_partial_stability (flags src dst via msg s0 s1 p_len : ℕ)
    (rest : List ℕ) (hlt : rest.length < p_len) :
    MeshFrame.unpack
        (0xA5 :: flags :: src :: dst :: via :: msg :: s0 :: s1 :: p_len ::
          rest) =
        (none,
          0xA5 :: flags :: src :: dst :: via :: msg :: s0 :: s1 :: p_len ::
            rest) ∧
      MeshFrame.unpack
          (MeshFrame.unpack
              (0xA5 :: flags :: src :: dst :: via :: msg :: s0 :: s1 ::
                p_len :: rest)).2 =
        (none,
          0xA5 :: flags :: src :: dst :: via :: msg :: s0 :: s1 :: p_len ::
            rest) := by
  have h1 : MeshFrame.unpack
      (0xA5 :: flags :: src :: dst :: via :: msg :: s0 :: s1 :: p_len ::
        rest) =
      (none,
        0xA5 :: flags :: src :: dst :: via :: msg :: s0 :: s1 :: p_len ::
          rest) := by
    simp [MeshFrame.unpack, HU_PROTOCOL_MAGIC, hlt]
  exact ⟨h1, by rw [h1]; exact h1⟩

/-- C5 witness: the first 15 bytes of the spec's 20-byte scale-telemetry
frame (header declares an 11-byte payload, only 6 have arrived). -/
theorem c5_partial_stability_witness :
    MeshFrame.unpack
        (0xA5 :: 0 :: 1 :: 32 :: 0 :: 50 :: 0 :: 0 :: 11 ::
          [232, 3, 0, 0, 68, 72]) =
        (none,
          0xA5 :: 0 :: 1 :: 32 :: 0 :: 50 :: 0 :: 0 :: 11 ::
            [232, 3, 0, 0, 68, 72]) ∧
      MeshFrame.unpack
          (MeshFrame.unpack
              (0xA5 :: 0 :: 1 :: 32 :: 0 :: 50 :: 0 :: 0 :: 11 ::
                [232, 3, 0, 0, 68, 72])).2 =
        (none,
          0xA5 :: 0 :: 1 :: 32 :: 0 :: 50 :: 0 :: 0 :: 11 ::
            [232, 3, 0, 0, 68, 72]) :=
  c5_partial_stability 0 1 32 0 50 0 0 11 [232, 3, 0, 0, 68, 72] (by decide)

/-- C9: decode does not enforce the 230-byte payload limit: for any
declared length `L ≤ 255`, a sentinel-led buffer carrying at least `L`
bytes after its header decodes to a frame whose payload has length exactly
`L`, and when `L` exceeds 230 re-encoding that frame fails with the
payload-too-large error. -/
theorem c9_decode_no_size_limit (flags src dst via msg s0 s1 L : ℕ)
    (rest : List ℕ) (hL : L ≤ 255) (hrest : L ≤ rest.length) :
    ∃ fr, MeshFrame.unpack
        (0xA5 :: flags :: src :: dst :: via :: msg :: s0 :: s1 :: L ::
          rest) = (some fr, rest.drop L) ∧
      fr.payload.length = L ∧
      (230 < L → fr.pack = Except.error PackError.payloadTooLarge) := by
  have hnot : ¬ rest.length < L := by omega
  refine ⟨{ src_id := src, dst_id := dst, msg_type := msg,
            payload := rest.take L, via_id := via,
            seq_num := (s0 : ℤ) + 256 * s1, flags := flags }, ?_, ?_, ?_⟩
  · simp [MeshFrame.unpack, HU_PROTOCOL_MAGIC, hnot]
  · simp [List.length_take]; omega
  · intro h
    rw [MeshFrame.pack,
      if_pos (by simp [HU_MAX_PAYLOAD_SIZE, List.length_take]; omega)]

/-- C9 witness: a declared length of 231 with 231 payload bytes present. -/
theorem c9_decode_no_size_limit_witness :
    ∃ fr, MeshFrame.unpack
        (0xA5 :: 0 :: 0 :: 0 :: 0 :: 0 :: 0 :: 0 :: 231 ::
          List.replicate 231 0) =
        (some fr, (List.replicate 231 (0 : ℕ)).drop 231) ∧
      fr.payload.length = 231 ∧
      (230 < 231 → fr.pack = Except.error PackError.payloadTooLarge) :=
  c9_decode_no_size_limit 0 0 0 0 0 0 0 231 (List.replicate 231 0)
    (by decide) (by rw [List.length_replicate])

/-- C10: packing can fail for a reason other than an oversized payload: a
frame whose payload is empty (within the 230-byte limit) but whose source
address is 256 — outside the 8-bit field — fails with the struct range
error, producing no bytes; header fields are not masked to their wire
width. -/
theorem c10_header_out_of_range :
    MeshFrame.pack { src_id := 256, dst_id := 0, msg_type := 0 } =
        Except.error PackError.structError ∧
      (MeshFrame.payload { src_id := 256, dst_id := 0, msg_type := 0 }).length
          ≤ 230 ∧
      PackError.structError ≠ PackError.payloadTooLarge := by
  refine ⟨rfl, by decide, by decide⟩

/-- A profile node whose time offset fits 16 bits packs to exactly 13
bytes (2-byte time offset, config byte, ten scaled bytes). -/
theorem PayloadProfileNode.pack_length (n : PayloadProfileNode)
    (h0 : 0 ≤ n.time_offset_ms) (h1 : n.time_offset_ms < 65536) :
    ∃ bs, n.pack = Except.ok bs ∧ bs.length = 13 := by
  rw [PayloadProfileNode.pack, if_pos (by simp [isH]; omega)]
  exact ⟨_, rfl, rfl⟩

/-- Packing a list of profile nodes with in-range time offsets succeeds
node by node, producing 13 bytes per node. -/
theorem mapM_nodes_ok (ns : List PayloadProfileNode)
    (h : ∀ n ∈ ns, 0 ≤ n.time_offset_ms ∧ n.time_offset_ms < 65536) :
    ∃ parts, ns.mapM PayloadProfileNode.pack = Except.ok parts ∧
      parts.flatten.length = 13 * ns.length := by
  induction ns with
  | nil => exact ⟨[], rfl, rfl⟩
  | cons n ns ih =>
    obtain ⟨hn, hns⟩ := List.forall_mem_cons.mp h
    obtain ⟨b, hb, hb13⟩ := n.pack_length hn.1 hn.2
    obtain ⟨parts, hp, hlen⟩ := ih hns
    refine ⟨b :: parts, ?_, ?_⟩
    · simp only [List.mapM_cons, hb, hp]; rfl
    · simp [hb13, hlen]; ring

/-- C6: `PayloadProfileLoad.pack` fails with the too-many-nodes error
exactly when the node list holds more than 17 nodes; for at most 17 nodes
(with in-range profile id and node time offsets) it returns
`2 + 13·count` bytes, which never exceeds the 230-byte frame payload
limit. -/
theorem c6_profile_load (p : PayloadProfileLoad)
    (hid0 : 0 ≤ p.profile_id) (hid1 : p.profile_id < 256)
    (hn : ∀ n ∈ p.nodes, 0 ≤ n.time_offset_ms ∧ n.time_offset_ms < 65536) :
    (p.pack = Except.error PackError.tooManyNodes ↔ 17 < p.nodes.length) ∧
      (p.nodes.length ≤ 17 →
        ∃ bs, p.pack = Except.ok bs ∧ bs.length = 2 + 13 * p.nodes.length ∧
          bs.length ≤ 230) := by
  have hok : p.nodes.length ≤ 17 →
      ∃ bs, p.pack = Except.ok bs ∧ bs.length = 2 + 13 * p.nodes.length := by
    intro hle
    obtain ⟨parts, hp, hlen⟩ := mapM_nodes_ok p.nodes hn
    refine ⟨[p.profile_id.toNat, p.nodes.length] ++ parts.flatten, ?_, ?_⟩
    · rw [PayloadProfileLoad.pack, if_neg (by omega),
        if_pos (by simp [isB]; omega)]
      simp only [hp]; rfl
    · simp [hlen]; omega
  refine ⟨⟨?_, ?_⟩, ?_⟩
  · intro he
    by_contra hgt
    obtain ⟨bs, hbs, _⟩ := hok (by omega)
    rw [hbs] at he
    exact absurd he (by simp)
  · intro hgt
    rw [PayloadProfileLoad.pack, if_pos (by omega)]
  · intro hle
    obtain ⟨bs, hbs, hlen⟩ := hok hle
    exact ⟨bs, hbs, hlen, by omega⟩

/-- C6 witness: a single all-zero node packs to `2 + 13` bytes. -/
theorem c6_profile_load_witness :
    (PayloadProfileLoad.pack
          ⟨1, [⟨0, 0, 0, 0, 0, 0, 0, 0, 0, 0, 0, 0, 0⟩]⟩ =
        Except.error PackError.tooManyNodes ↔
      17 < (PayloadProfileLoad.nodes
          ⟨1, [⟨0, 0, 0, 0, 0, 0, 0, 0, 0, 0, 0, 0, 0⟩]⟩).length) ∧
    ((PayloadProfileLoad.nodes
          ⟨1, [⟨0, 0, 0, 0, 0, 0, 0, 0, 0, 0, 0, 0, 0⟩]⟩).length ≤ 17 →
      ∃ bs, PayloadProfileLoad.pack
            ⟨1, [⟨0, 0, 0, 0, 0, 0, 0, 0, 0, 0, 0, 0, 0⟩]⟩ =
          Except.ok bs ∧
        bs.length = 2 + 13 * (PayloadProfileLoad.nodes
            ⟨1, [⟨0, 0, 0, 0, 0, 0, 0, 0, 0, 0, 0, 0, 0⟩]⟩).length ∧
        bs.length ≤ 230) :=
  c6_profile_load ⟨1, [⟨0, 0, 0, 0, 0, 0, 0, 0, 0, 0, 0, 0, 0⟩]⟩
    (by decide) (by decide) (by simp)

/-- `pyRound` never exceeds the floor by more than one. -/
theorem pyRound_le_floor_add_one (q : ℚ) : pyRound q ≤ ⌊q⌋ + 1 := by
  unfold pyRound; split_ifs <;> omega

/-- `pyRound` is at least the floor. -/
theorem floor_le_pyRound (q : ℚ) : ⌊q⌋ ≤ pyRound q := by
  unfold pyRound; split_ifs <;> omega

/-- Python's round of zero is zero. -/
theorem pyRound_zero : pyRound (0 : ℚ) = 0 := by
  unfold pyRound; norm_num

/-- Scaling a zero value gives the zero byte. -/
theorem _s_zero (factor : ℚ) : _s 0 factor = 0 := by
  unfold _s; rw [zero_div, pyRound_zero]; decide

/-- Python's round sends the tie `1/2` to the even integer `0`. -/
theorem pyRound_half : pyRound (1 / 2 : ℚ) = 0 := by
  have h : ⌊(1 / 2 : ℚ)⌋ = 0 := by norm_num
  unfold pyRound
  rw [h]
  norm_num

/-- C7 counterexample: a profile node with temperature target `0.25`
encodes its temperature byte (offset 3) as `0` — Python's `round` sends
the tie `0.25 / 0.5 = 0.5` to the even integer `0` — while the spec's
`clamp(round(value / step), 0, 255)` with round-half-away-from-zero
prescribes `1`. -/
theorem c7_counterexample :
    PayloadProfileNode.pack ⟨0, 0, 0, 1 / 4, 0, 0, 0, 0, 0, 0, 0, 0, 0⟩ =
        Except.ok [0, 0, 0, 0, 0, 0, 0, 0, 0, 0, 0, 0, 0] ∧
      specScaledByte (1 / 4) (1 / 2) = 1 := by
  constructor
  · rw [PayloadProfileNode.pack, if_pos (by decide)]
    have hq : _s (1 / 4) (1 / 2) = 0 := by
      have hd : ((1 / 4 : ℚ) / (1 / 2)) = 1 / 2 := by norm_num
      unfold _s; rw [hd, pyRound_half]; decide
    have hl : (Int.lor (Int.land 0 3) (Int.land 0 3 * 4)).toNat = 0 := by
      decide
    simp only [Except.ok.injEq, PayloadProfileNode.config]
    norm_num [hq, _s_zero, hl]
  · have hd : ((1 / 4 : ℚ) / (1 / 2)) = 1 / 2 := by norm_num
    unfold specScaledByte roundHalfAwayFromZero
    rw [hd, if_pos (by norm_num)]
    norm_num

/-- C7 (amended): every scaled byte of a packed profile node equals
`clamp(round(value / step), 0, 255)` where round is Python's round half to
even (not half away from zero); values below zero saturate to 0 and values
at or beyond `256·step` saturate to 255 rather than wrapping or erroring. -/
theorem c7_scaling (n : PayloadProfileNode) (h0 : 0 ≤ n.time_offset_ms)
    (h1 : n.time_offset_ms < 65536) (val step : ℚ) (hstep : 0 < step) :
    n.pack = Except.ok
        [n.time_offset_ms.toNat % 256, n.time_offset_ms.toNat / 256,
         n.config.toNat,
         (max 0 (min 255 (pyRound (n.temp_target / (1 / 2))))).toNat,
         (max 0 (min 255 (pyRound (n.temp_tol / (1 / 2))))).toNat,
         (max 0 (min 255 (pyRound (n.press_target / (1 / 10))))).toNat,
         (max 0 (min 255 (pyRound (n.press_tol / (1 / 10))))).toNat,
         (max 0 (min 255 (pyRound (n.flow_in_target / (1 / 10))))).toNat,
         (max 0 (min 255 (pyRound (n.flow_in_tol / (1 / 10))))).toNat,
         (max 0 (min 255 (pyRound (n.flow_out_target / (1 / 10))))).toNat,
         (max 0 (min 255 (pyRound (n.flow_out_tol / (1 / 10))))).toNat,
         (max 0 (min 255 (pyRound ((n.energy_target : ℚ) / 1)))).toNat,
         (max 0 (min 255 (pyRound ((n.energy_tol : ℚ) / 1)))).toNat] ∧
      (val < 0 → _s val step = 0) ∧
      (256 * step ≤ val → _s val step = 255) := by
  refine ⟨?_, ?_, ?_⟩
  · rw [PayloadProfileNode.pack, if_pos (by simp [isH]; omega)]
    rfl
  · intro hv
    have hq : val / step < 0 := div_neg_of_neg_of_pos hv hstep
    have hf : ⌊val / step⌋ < 0 := Int.floor_lt.mpr (by exact_mod_cast hq)
    have := pyRound_le_floor_add_one (val / step)
    unfold _s
    omega
  · intro hv
    have hq : (256 : ℚ) ≤ val / step := by
      rw [le_div_iff₀ hstep]; linarith
    have hf : (256 : ℤ) ≤ ⌊val / step⌋ := Int.le_floor.mpr (by exact_mod_cast hq)
    have := floor_le_pyRound (val / step)
    unfold _s
    omega

/-- C7 witness: the amended scaling theorem at an all-zero node with
`val = -1`, `step = 1/2`. -/
theorem c7_scaling_witness :
    PayloadProfileNode.pack ⟨0, 0, 0, 0, 0, 0, 0, 0, 0, 0, 0, 0, 0⟩ =
        Except.ok [0, 0, 0, 0, 0, 0, 0, 0, 0, 0, 0, 0, 0] ∧
      ((-1 : ℚ) < 0 → _s (-1) (1 / 2) = 0) ∧
      (256 * (1 / 2 : ℚ) ≤ -1 → _s (-1) (1 / 2) = 255) := by
  have h := c7_scaling ⟨0, 0, 0, 0, 0, 0, 0, 0, 0, 0, 0, 0, 0⟩
    (by decide) (by decide) (-1) (1 / 2) (by norm_num)
  refine ⟨?_, h.2.1, h.2.2⟩
  rw [h.1]
  have hl : (Int.lor (Int.land 0 3) (Int.land 0 3 * 4)).toNat = 0 := by
    decide
  simp only [Except.ok.injEq, PayloadProfileNode.config]
  norm_num [pyRound_zero, hl]

/-- C8: the fixed-size payload decoders return `none` exactly when given
fewer bytes than the structure's size — never raising and never building a
partial structure — and otherwise parse the little-endian layout:
`PayloadScaleData.unpack` needs 11 bytes (unsigned 32-bit timestamp,
signed 32-bit weight, signed 16-bit flow, status byte) and
`PayloadInputEvent.unpack` needs 6 bytes (source byte, event-type byte,
signed 32-bit value). -/
theorem c8_payload_decoders (data d2 : List ℕ) :
    ((PayloadScaleData.unpack data).isSome ↔ 11 ≤ data.length) ∧
      (11 ≤ data.length →
        PayloadScaleData.unpack data = some
          { timestamp_ms := u32le (data.getD 0 0) (data.getD 1 0)
              (data.getD 2 0) (data.getD 3 0),
            weight_mg := toSigned 32 (u32le (data.getD 4 0) (data.getD 5 0)
              (data.getD 6 0) (data.getD 7 0)),
            flow_mg_s := toSigned 16 (u16le (data.getD 8 0) (data.getD 9 0)),
            status := data.getD 10 0 }) ∧
      ((PayloadInputEvent.unpack d2).isSome ↔ 6 ≤ d2.length) ∧
      (6 ≤ d2.length →
        PayloadInputEvent.unpack d2 = some
          { source_index := d2.getD 0 0, event_type := d2.getD 1 0,
            value := toSigned 32 (u32le (d2.getD 2 0) (d2.getD 3 0)
              (d2.getD 4 0) (d2.getD 5 0)) }) := by
  refine ⟨?_, ?_, ?_, ?_⟩
  · rw [PayloadScaleData.unpack]; split <;> simp <;> omega
  · intro h; rw [PayloadScaleData.unpack, if_neg (by omega)]
  · rw [PayloadInputEvent.unpack]; split <;> simp <;> omega
  · intro h; rw [PayloadInputEvent.unpack, if_neg (by omega)]

/-- C8 witness: the 11-byte scale telemetry
`{timestamp_ms = 1000, weight_mg = 18500, flow_mg_s = 120, status = 0}`
and a 6-byte input event with value `-2`. -/
theorem c8_payload_decoders_witness :
    PayloadScaleData.unpack [232, 3, 0, 0, 68, 72, 0, 0, 120, 0, 0] =
        some { timestamp_ms := 1000, weight_mg := 18500, flow_mg_s := 120,
               status := 0 } ∧
      PayloadInputEvent.unpack [5, 4, 254, 255, 255, 255] =
        some { source_index := 5, event_type := 4, value := -2 } := by
  have h := c8_payload_decoders [232, 3, 0, 0, 68, 72, 0, 0, 120, 0, 0]
    [5, 4, 254, 255, 255, 255]
  exact ⟨(h.2.1 (by decide)).trans (by decide),
    (h.2.2.2 (by decide)).trans (by decide)⟩

end CdProtocol
